import Mathlib

/-!
# Verification of the `mr_stripe` webhook ingestion and checkout pipeline

Shallow embedding of the Stripe integration in `src/mr_stripe`
(`mod.py` and `router.py`).  Python dictionaries are modelled as
association lists over an inductive value type, exceptions as `Except
String`, and the external collaborators (`service_manager.process_purchase`,
`service_manager.process_subscription_event`, `stripe.Subscription.retrieve`,
`stripe.checkout.Session.create`) as function parameters.  Python float
division (`amount_total / 100`) is modelled by an exact round-to-nearest-even
binary64 model over `ℚ` (normal range; the amounts involved are far from
subnormal or overflow territory).
-/

namespace MrStripe

/-- Model of a Python value as it appears in decoded Stripe webhook payloads:
`None`, booleans, integers, strings and (nested) dictionaries. -/
inductive PyVal where
  | none
  | bool (b : Bool)
  | int (n : Int)
  | str (s : String)
  | dict (fields : List (String × PyVal))

/-- A Python dictionary: an association list from string keys to values. -/
abbrev PyDict := List (String × PyVal)

/-- `d.get(k)` on a Python dict whose representation is already known to be a
dictionary: returns the value or `None` when the key is absent. -/
def dGet (d : PyDict) (k : String) : PyVal :=
  match d with
  | [] => PyVal.none
  | (k0, v0) :: rest => if k0 = k then v0 else dGet rest k

/-- `d[k] = v` / `dict.update` single-key semantics: replace the binding if the
key is present, otherwise append it (Python dicts keep insertion order). -/
def dSet (d : PyDict) (k : String) (v : PyVal) : PyDict :=
  match d with
  | [] => [(k, v)]
  | (k0, v0) :: rest => if k0 = k then (k, v) :: rest else (k0, v0) :: dSet rest k v

/-- `d.update(u)`: apply `dSet` for each binding of `u` in order. -/
def dUpdate (d : PyDict) (u : PyDict) : PyDict :=
  match u with
  | [] => d
  | (k, v) :: rest => dUpdate (dSet d k v) rest

/-- Python subscription access `v[k]`: raises `KeyError` when the key is absent
and `TypeError` when the value is not a dictionary. -/
def PyVal.getItem (v : PyVal) (k : String) : Except String PyVal :=
  match v with
  | .dict d =>
    match d.lookup k with
    | some x => .ok x
    | Option.none => .error ("KeyError: " ++ k)
  | _ => .error ("TypeError: value is not subscriptable at key " ++ k)

/-- Python `v.get(k)`: `None` default on a dictionary, `AttributeError` when the
receiver is not a dictionary. -/
def PyVal.get (v : PyVal) (k : String) : Except String PyVal :=
  match v with
  | .dict d => .ok (dGet d k)
  | _ => .error ("AttributeError: value has no attribute get at key " ++ k)

/-- Python `v.get(k, default)`. -/
def PyVal.getD (v : PyVal) (k : String) (dflt : PyVal) : Except String PyVal :=
  match v with
  | .dict d =>
    match d.lookup k with
    | some x => .ok x
    | Option.none => .ok dflt
  | _ => .error ("AttributeError: value has no attribute get at key " ++ k)

/-- Python `v == "lit"` for a string literal: true exactly when `v` is that
string. -/
def PyVal.isStr (v : PyVal) (s : String) : Bool :=
  match v with
  | .str t => t == s
  | _ => false

/-- Python truthiness, as used by the router when it tests whether the
normalized event has a nonempty event_type value. -/
def PyVal.truthy (v : PyVal) : Bool :=
  match v with
  | .none => false
  | .bool b => b
  | .int n => n != 0
  | .str s => s.length != 0
  | .dict d => !d.isEmpty

/-- A Python integer read out of a payload field; any other value raises
`TypeError` when used in arithmetic. -/
def PyVal.asInt (v : PyVal) : Except String Int :=
  match v with
  | .int n => .ok n
  | _ => .error "TypeError: unsupported operand type"

/-! ## Exact model of binary64 (IEEE 754 double) rounding

Python evaluates `amount_total / 100` with float (binary64) division.  A
binary64 value is a dyadic rational; we represent one exactly as a pair
`m / 2 ^ k` and model each arithmetic operation as the exact real result
rounded to 53 significant bits with round-to-nearest, ties-to-even — which is
precisely the IEEE 754 semantics of correctly rounded division and
multiplication.  The model covers the normal range, which contains every
monetary amount in play (no subnormals, no overflow).  All computations are
structural recursions over `ℕ`/`ℤ` so that concrete instances evaluate inside
the kernel. -/

/-- Rounded natural division `a / b`: round to nearest, ties to even. -/
def rdivEven (a b : ℕ) : ℕ :=
  let q := a / b
  let r := a % b
  if 2 * r < b then q else if b < 2 * r then q + 1 else if q % 2 = 0 then q else q + 1

/-- Fuel-based `⌊log₂ n⌋` (structural recursion, kernel-evaluable). -/
def nlog2F : ℕ → ℕ → ℕ
  | 0, _ => 0
  | fuel + 1, n => if n ≤ 1 then 0 else nlog2F fuel (n / 2) + 1

/-- `⌊log₂ n⌋` for `n ≥ 1` (and `0` at `0`). -/
def nlog2 (n : ℕ) : ℕ := nlog2F n n

/-- Does `2 ^ c ≤ a / b` hold for positive naturals `a`, `b`? -/
def pow2le (c : Int) (a b : ℕ) : Bool :=
  if 0 ≤ c then decide (b * 2 ^ c.toNat ≤ a) else decide (b ≤ a * 2 ^ (-c).toNat)

/-- `⌊log₂ (a / b)⌋` for positive naturals `a`, `b`. -/
def dlog2 (a b : ℕ) : Int :=
  let c : Int := (nlog2 a : Int) - (nlog2 b : Int)
  if pow2le c a b then c else c - 1

/-- A binary64 value in the normal range, represented exactly as the dyadic
rational `m / 2 ^ k`. -/
structure F64 where
  m : Int
  k : ℕ
deriving DecidableEq

/-- The exact rational denoted by a binary64 value. -/
def F64.toRat (f : F64) : ℚ := (f.m : ℚ) / ((2 ^ f.k : ℕ) : ℚ)

/-- Round the positive rational `a / b` to the nearest binary64 value
(53 significant bits, ties to even). -/
def f64OfPosRat (a b : ℕ) : F64 :=
  if a = 0 then ⟨0, 0⟩ else
  let e := dlog2 a b
  if e ≤ 52 then
    let k := (52 - e).toNat
    ⟨((rdivEven (a * 2 ^ k) b : ℕ) : Int), k⟩
  else
    ⟨((rdivEven a (b * 2 ^ (e - 52).toNat) : ℕ) : Int) * 2 ^ (e - 52).toNat, 0⟩

/-- Round the rational `x / b` to the nearest binary64 value (rounding is
symmetric under negation, ties-to-even included). -/
def f64OfRat (x : Int) (b : ℕ) : F64 :=
  if x < 0 then
    let f := f64OfPosRat x.natAbs b
    ⟨-f.m, f.k⟩
  else f64OfPosRat x.natAbs b

/-- Python float division `x / y` of integers: the exact quotient, correctly
rounded to binary64. -/
def f64Div (x : Int) (y : ℕ) : F64 := f64OfRat x y

/-- Python float multiplication of a binary64 value by an exact natural
(`value * 100`): the exact product, correctly rounded to binary64. -/
def f64MulNat (f : F64) (c : ℕ) : F64 := f64OfRat (f.m * c) (2 ^ f.k)

/-- Python `int(x)` on a binary64 value: truncation toward zero. -/
def f64Trunc (f : F64) : Int :=
  if 0 ≤ f.m then ((f.m.natAbs / 2 ^ f.k : ℕ) : Int) else -((f.m.natAbs / 2 ^ f.k : ℕ) : Int)

/-- The rational value that Python computes for `n / 100` (float division of
the integer minor-unit amount), as passed onward by `process_single_payment`. -/
def floatDivQ (x : Int) (y : ℕ) : ℚ := (f64Div x y).toRat

/-- Python `int(x)` on an exact rational (`Decimal`): truncation toward zero. -/
def pyTrunc (q : ℚ) : Int :=
  if 0 ≤ q.num then ((q.num.natAbs / q.den : ℕ) : Int) else -((q.num.natAbs / q.den : ℕ) : Int)

/-! ## Checkout-session construction (`mod.py`, `product_checkout` and
`subscription_checkout`)

`stripe.checkout.Session.create` is an external collaborator; it is modelled as
a function parameter from the marshalled parameters to the session URL.  The
single line item both functions build is flattened into the parameter record.
Monetary `amount` arguments are Python `Decimal` values, modelled as exact
rationals. -/

/-- The `CheckoutUrls` dataclass of `mod.py`. -/
structure CheckoutUrls where
  success : String
  cancel : String

/-- The keyword arguments marshalled into `stripe.checkout.Session.create`,
with the one line item flattened in. -/
structure SessionParams where
  payment_method_types : List String
  currency : String
  product_name : String
  unit_amount : Int
  recurring_interval : Option String
  quantity : Int
  mode : String
  success_url : String
  cancel_url : String
  client_reference_id : String
  metadata : PyDict

/-- `product_checkout` of `mod.py`: marshal a one-time purchase checkout
session.  Returns the provider calls made and the session URL. -/
def product_checkout (createSession : SessionParams → String)
    (user_id : String) (amount : ℚ) (product_name : String) (currency : String)
    (quantity : Int) (urls : Option CheckoutUrls) (metadata : Option PyDict) :
    List SessionParams × String :=
  let success_url :=
    match urls with
    | some u => u.success
    | Option.none => "/stripe/success?session_id=\x7bCHECKOUT_SESSION_ID\x7d"
  let cancel_url :=
    match urls with
    | some u => u.cancel
    | Option.none => "/stripe/cancel"
  let p : SessionParams :=
    { payment_method_types := ["card"]
      currency := currency.toLower
      product_name := product_name
      unit_amount := pyTrunc (amount * 100)
      recurring_interval := Option.none
      quantity := quantity
      mode := "payment"
      success_url := success_url
      cancel_url := cancel_url
      client_reference_id := user_id
      metadata := metadata.getD [] }
  ([p], createSession p)

/-- `subscription_checkout` of `mod.py`: validates `interval`, then marshals a
subscription checkout session.  The `ValueError` (modelled as the `.error`
case, with the quotes of the source message dropped) is raised before the line
items are built and before the provider is invoked, so the error case performs
no provider call. -/
def subscription_checkout (createSession : SessionParams → String) (baseUrl : String)
    (user_id : String) (plan_name : String) (amount : ℚ) (interval : String)
    (currency : String) (urls : Option CheckoutUrls) (metadata : Option PyDict) :
    List SessionParams × Except String String :=
  if interval = "month" ∨ interval = "year" then
    let success_url :=
      match urls with
      | some u => u.success
      | Option.none => baseUrl ++ "/stripe/success?session_id=\x7bCHECKOUT_SESSION_ID\x7d"
    let cancel_url :=
      match urls with
      | some u => u.cancel
      | Option.none => baseUrl ++ "/stripe/cancel"
    let p : SessionParams :=
      { payment_method_types := ["card"]
        currency := currency.toLower
        product_name := plan_name
        unit_amount := pyTrunc (amount * 100)
        recurring_interval := some interval
        quantity := 1
        mode := "subscription"
        success_url := success_url
        cancel_url := cancel_url
        client_reference_id := user_id
        metadata := metadata.getD [] }
    ([p], Except.ok (createSession p))
  else
    ([], Except.error "ValueError: interval must be month or year")

/-! ## The webhook ingestion pipeline (`router.py` `handle_webhook`,
`mod.py` `process_single_payment` and `normalize_subscription_event`)

External collaborators:
* `service_manager.process_purchase` and
  `service_manager.process_subscription_event` are fields of `Collabs`;
* `stripe.Subscription.retrieve` (the renewal period-bounds enrichment) is the
  `retrieveSub` parameter;
* `stripe.Webhook.construct_event` (the signature verifier) is the
  `constructEvent` parameter: `.ok` is a verified parsed event, `.error` is an
  `InvalidSignature` / `StaleTimestamp` / `MalformedPayload` failure;
* `datetime.now().isoformat()` is the `nowIso` parameter.

Side effects on collaborators are made observable as a list of
`CollabCall` records, accumulated in order, kept also when an exception is
raised after the call happened. -/

/-- Membership test `event_type in [...]` of a Python value against a list of
string literals. -/
def PyVal.inStrList (v : PyVal) (l : List String) : Bool :=
  match v with
  | .str s => l.contains s
  | _ => false

/-- A call made to one of the `service_manager` collaborators. -/
inductive CollabCall where
  | processPurchase (user_id transaction_id : PyVal) (amount : ℚ)
      (currency metadata : PyVal) (source : String)
  | processSubscriptionEvent (arg : PyVal)

/-- The behaviour of the `service_manager` collaborators: each either returns
a value or raises (an `Except.error`). -/
structure Collabs where
  process_purchase : PyVal → PyVal → ℚ → PyVal → PyVal → Except String PyVal
  process_subscription_event : PyVal → Except String PyVal

/-- `process_single_payment` of `mod.py`.  Returns the collaborator calls made
and either the `bool` result or the exception raised.  The `try/except` in the
source logs and re-raises, so it is semantically the identity on the raised
exception.  Keyword arguments are evaluated in source order, so a `KeyError`
or `TypeError` while building them precedes (and suppresses) the collaborator
call. -/
def process_single_payment (c : Collabs) (event : PyVal) :
    List CollabCall × Except String Bool :=
  match event.getItem "type" with
  | .error e => ([], .error e)
  | .ok event_type =>
  match event.getItem "data" with
  | .error e => ([], .error e)
  | .ok data =>
  match data.getItem "object" with
  | .error e => ([], .error e)
  | .ok session =>
  if event_type.isStr "checkout.session.completed" then
    match session.get "mode" with
    | .error e => ([], .error e)
    | .ok mode =>
    if mode.isStr "payment" then
      match session.getItem "client_reference_id" with
      | .error e => ([], .error e)
      | .ok user_id =>
      match session.getItem "id" with
      | .error e => ([], .error e)
      | .ok transaction_id =>
      match session.getItem "amount_total" with
      | .error e => ([], .error e)
      | .ok amount_total =>
      match amount_total.asInt with
      | .error e => ([], .error e)
      | .ok amt =>
      match session.getItem "currency" with
      | .error e => ([], .error e)
      | .ok currency =>
      match session.getItem "metadata" with
      | .error e => ([], .error e)
      | .ok metadata =>
      let amount := floatDivQ amt 100
      let call := CollabCall.processPurchase user_id transaction_id amount currency metadata "stripe"
      match c.process_purchase user_id transaction_id amount currency metadata with
      | .ok _ => ([call], .ok true)
      | .error e => ([call], .error e)
    else ([], .ok false)
  else ([], .ok false)

/-- Abstract rendering of `datetime.fromtimestamp(n).isoformat()`.  The claims
never inspect the textual format, only that normalization succeeds and which
keys are present. -/
def isoOfTimestamp (n : Int) : String := "iso:" ++ toString n

/-- Pure dictionary lookup with a default, for `d.get(k, dflt)` on a value
already known to be a dictionary. -/
def dGetD (d : PyDict) (k : String) (dflt : PyVal) : PyVal :=
  match d.lookup k with
  | some v => v
  | Option.none => dflt

/-- `normalize_subscription_event` of `mod.py`.

Faithful to the source, including its bug: in the `invoice.paid` branch the
source logs an f-string interpolating `stripe_subscription` *before* the local
variable `stripe_subscription` is assigned and *outside* the `try` that guards
the enrichment lookup, so evaluating the f-string raises `UnboundLocalError`
unconditionally; the branch never reaches `stripe.Subscription.retrieve`
(`retrieveSub` is dead code in the actual semantics of the source, kept in the
signature as documentation of the intended dependency). -/
def normalize_subscription_event (retrieveSub : PyVal → Except String (Int × Int))
    (nowIso : String) (event : PyVal) : Except String PyDict :=
  match event.getItem "type" with
  | .error e => .error e
  | .ok event_type =>
  let normalized : PyDict :=
    [("original_type", event_type), ("provider", PyVal.str "stripe"),
     ("timestamp", PyVal.str nowIso)]
  if event_type.isStr "checkout.session.completed" then
    match event.getItem "data" with
    | .error e => .error e
    | .ok data =>
    match data.getItem "object" with
    | .error e => .error e
    | .ok session =>
    match session with
    | .dict sd =>
      if (dGet sd "mode").isStr "subscription" then
        .ok (dUpdate normalized
          [("event_type", PyVal.str "subscription_created"),
           ("username", dGet sd "client_reference_id"),
           ("subscription_id", dGet sd "subscription"),
           ("metadata", dGetD sd "metadata" (PyVal.dict []))])
      else .ok normalized
    | _ => .error "AttributeError: session value has no attribute get"
  else if event_type.isStr "invoice.paid" then
    match event.getItem "data" with
    | .error e => .error e
    | .ok data =>
    match data.getItem "object" with
    | .error e => .error e
    | .ok invoice =>
    match invoice with
    | .dict idict =>
      let subscription_id := dGet idict "subscription"
      let _updated := dUpdate normalized
        [("event_type", PyVal.str "subscription_renewed"),
         ("subscription_id", subscription_id),
         ("invoice_id", dGet idict "id")]
      -- source line 315: the f-string in `logger.info` evaluates the local
      -- `stripe_subscription` before its assignment inside the `try` below it
      .error "UnboundLocalError: local variable stripe_subscription referenced before assignment"
    | _ => .error "AttributeError: invoice value has no attribute get"
  else if event_type.isStr "customer.subscription.updated" then
    match event.getItem "data" with
    | .error e => .error e
    | .ok data =>
    match data.getItem "object" with
    | .error e => .error e
    | .ok subscription =>
    match subscription with
    | .dict sd =>
      -- `datetime.fromtimestamp` raises `TypeError` unless the value is a number
      match dGet sd "current_period_end" with
      | .int n =>
        .ok (dUpdate normalized
          [("event_type", PyVal.str "subscription_updated"),
           ("subscription_id", dGet sd "id"),
           ("status", dGet sd "status"),
           ("cancel_at_period_end", dGetD sd "cancel_at_period_end" (PyVal.bool false)),
           ("current_period_end", PyVal.str (isoOfTimestamp n))])
      | _ => .error "TypeError: fromtimestamp argument must be a number"
    | _ => .error "AttributeError: subscription value has no attribute get"
  else if event_type.isStr "customer.subscription.deleted" then
    match event.getItem "data" with
    | .error e => .error e
    | .ok data =>
    match data.getItem "object" with
    | .error e => .error e
    | .ok subscription =>
    match subscription with
    | .dict sd =>
      .ok (dUpdate normalized
        [("event_type", PyVal.str "subscription_canceled"),
         ("subscription_id", dGet sd "id")])
    | _ => .error "AttributeError: subscription value has no attribute get"
  else .ok normalized

/-- The HTTP response produced by the FastAPI endpoint: returning a plain dict
yields HTTP status 200, so both return statements of `handle_webhook`
acknowledge with 200 and differ only in the JSON body. -/
structure HttpResp where
  httpStatus : ℕ
  status : String
  message : Option String

/-- `return ⟨"status": "success"⟩` (line 82 of `router.py`). -/
def okResp : HttpResp := ⟨200, "success", Option.none⟩

/-- `return ⟨"status": "error", "message": str(e)⟩` (line 86 of `router.py`):
still HTTP 200 — the source comment reads "Always return 200 to Stripe even on
error". -/
def errResp (e : String) : HttpResp := ⟨200, "error", some e⟩

/-- The event types the router forwards to the subscription pipeline
(lines 61-64 of `router.py`). -/
def webhookSubscriptionTypes : List String :=
  ["checkout.session.completed", "invoice.paid",
   "customer.subscription.updated", "customer.subscription.deleted"]

/-- `handle_webhook` of `router.py`.  The outer `try` catches every exception
(verification failures included) and returns the error body — with HTTP status
200.  The inner `try` around `process_subscription_event` logs and discards
the collaborator outcome.  Returns the collaborator calls made and the HTTP
response. -/
def handle_webhook (constructEvent : Except String PyVal) (c : Collabs)
    (retrieveSub : PyVal → Except String (Int × Int)) (nowIso : String) :
    List CollabCall × HttpResp :=
  match constructEvent with
  | .error e => ([], errResp e)
  | .ok event =>
  match event.getItem "type" with
  | .error e => ([], errResp e)
  | .ok event_type =>
  match process_single_payment c event with
  | (calls1, .error e) => (calls1, errResp e)
  | (calls1, .ok was_processed) =>
    if !was_processed && event_type.inStrList webhookSubscriptionTypes then
      match normalize_subscription_event retrieveSub nowIso event with
      | .error e => (calls1, errResp e)
      | .ok normalized =>
        if (dGet normalized "event_type").truthy then
          let arg := PyVal.dict
            [("provider", PyVal.str "stripe"),
             ("normalized_event", PyVal.dict normalized),
             ("original_event", event)]
          -- inner try/except: the collaborator outcome is logged and discarded
          let _res := c.process_subscription_event arg
          (calls1 ++ [CollabCall.processSubscriptionEvent arg], okResp)
        else (calls1, okResp)
    else (calls1, okResp)

/-- Number of `process_purchase` invocations in a list of collaborator calls. -/
def purchaseCount (l : List CollabCall) : ℕ :=
  l.countP fun call =>
    match call with
    | .processPurchase _ _ _ _ _ _ => true
    | _ => false

/-- Number of `process_subscription_event` invocations in a list of
collaborator calls. -/
def subEventCount (l : List CollabCall) : ℕ :=
  l.countP fun call =>
    match call with
    | .processSubscriptionEvent _ => true
    | _ => false

/-! ## The downstream dispatch of normalized subscription events

The per-domain-type dispatch lives in the downstream subscription plugin,
which is not among the sources of this repository; only its caller
(`service_manager.process_subscription_event` in `handle_webhook`) is. -/

/-- A call to one of the outbound subscription collaborators of spec section 6. -/
inductive DownstreamCall where
  | activateSubscription (actor_id subscription_id : PyVal)
  | updateSubscription (subscription_id status cancel_at_period_end period_end : PyVal)
  | deactivateSubscription (actor_id subscription_id : PyVal)

/-- Modelled from the spec: the handler of the downstream subscription plugin behind
`service_manager.process_subscription_event` is not under `src/`.  Per the
Dispatcher contract of the spec (section 4.4) and outbound interfaces (section 6), a
normalized event is routed to exactly one collaborator according to its
`event_type`: `subscription_created` to `activateSubscription`,
`subscription_updated` to `updateSubscription`, `subscription_canceled` to
`deactivateSubscription`; anything else is ignored. -/
def dispatch_subscription_event (normalized : PyDict) : List DownstreamCall :=
  if (dGet normalized "event_type").isStr "subscription_created" then
    [.activateSubscription (dGet normalized "username") (dGet normalized "subscription_id")]
  else if (dGet normalized "event_type").isStr "subscription_updated" then
    [.updateSubscription (dGet normalized "subscription_id") (dGet normalized "status")
      (dGet normalized "cancel_at_period_end") (dGet normalized "current_period_end")]
  else if (dGet normalized "event_type").isStr "subscription_canceled" then
    [.deactivateSubscription (dGet normalized "username") (dGet normalized "subscription_id")]
  else []

/-! ## Concrete webhook payloads used by the theorems -/

/-- A verified one-time-payment `checkout.session.completed` event
(`mode = "payment"`, `amount_total = 500`, `currency = "usd"`,
`client_reference_id = "u1"`). -/
def paymentEvt : PyVal :=
  .dict [("id", .str "evt_pay_1"), ("type", .str "checkout.session.completed"),
    ("data", .dict [("object", .dict
      [("id", .str "cs_1"), ("mode", .str "payment"),
       ("client_reference_id", .str "u1"), ("amount_total", .int 500),
       ("currency", .str "usd"), ("metadata", .dict [])])])]

/-- The same one-time-payment event with `amount_total = 29` minor units. -/
def paymentEvt29 : PyVal :=
  .dict [("id", .str "evt_pay_29"), ("type", .str "checkout.session.completed"),
    ("data", .dict [("object", .dict
      [("id", .str "cs_29"), ("mode", .str "payment"),
       ("client_reference_id", .str "u1"), ("amount_total", .int 29),
       ("currency", .str "usd"), ("metadata", .dict [])])])]

/-- A verified `invoice.paid` (renewal) event. -/
def invoicePaidEvt : PyVal :=
  .dict [("id", .str "evt_inv_1"), ("type", .str "invoice.paid"),
    ("data", .dict [("object", .dict
      [("id", .str "in_1"), ("subscription", .str "sub_1")])])]

/-- A verified `customer.subscription.deleted` event for subscription
`sub_123`. -/
def deletedEvt : PyVal :=
  .dict [("id", .str "evt_del_1"), ("type", .str "customer.subscription.deleted"),
    ("data", .dict [("object", .dict [("id", .str "sub_123")])])]

/-- A verified event of an event type outside the recognized set. -/
def unknownEvt : PyVal :=
  .dict [("id", .str "evt_unk_1"), ("type", .str "charge.refunded"),
    ("data", .dict [("object", .dict [("id", .str "ch_1")])])]

/-- Collaborators that always succeed. -/
def trivCollabs : Collabs :=
  { process_purchase := fun _ _ _ _ _ => .ok PyVal.none
    process_subscription_event := fun _ => .ok PyVal.none }

/-- An enrichment lookup that always fails (provider unavailable). -/
def failRetrieve : PyVal → Except String (Int × Int) := fun _ => .error "APIError"


/-- Collaborators that always raise. -/
def failingCollabs (e : String) : Collabs :=
  { process_purchase := fun _ _ _ _ _ => .error e
    process_subscription_event := fun _ => .error e }

/-- The exception raised by the `invoice.paid` branch of
`normalize_subscription_event` (source line 315). -/
def unboundLocalMsg : String :=
  "UnboundLocalError: local variable stripe_subscription referenced before assignment"

/-- The `process_purchase` invocation produced by `paymentEvt`. -/
def purchaseCall500 : CollabCall :=
  .processPurchase (.str "u1") (.str "cs_1") (floatDivQ 500 100) (.str "usd") (.dict []) "stripe"

/-- The normalized dictionary produced for any `customer.subscription.deleted`
event at timestamp `now`, where `sid` is the subscription id found in the
payload object. -/
def canceledNormAt (now : String) (sid : PyVal) : PyDict :=
  [("original_type", .str "customer.subscription.deleted"),
   ("provider", .str "stripe"), ("timestamp", .str now),
   ("event_type", .str "subscription_canceled"),
   ("subscription_id", sid)]

/-- The argument `handle_webhook` passes to `process_subscription_event` for a
`customer.subscription.deleted` event at timestamp `now`. -/
def canceledArg (now : String) (sid : PyVal) (event : PyVal) : PyVal :=
  .dict [("provider", .str "stripe"),
         ("normalized_event", .dict (canceledNormAt now sid)),
         ("original_event", event)]

/-- Lookup of a key in the dictionary produced by a normalization result:
`None` when normalization raised or when the key is absent. -/
def resultGet (r : Except String PyDict) (k : String) : PyVal :=
  match r with
  | .ok d => dGet d k
  | .error _ => PyVal.none

/-- A verified event with an arbitrary `event_type` string and payload. -/
def mkEvt (s : String) (pay : PyVal) : PyVal :=
  .dict [("id", .str "evt_x"), ("type", .str s), ("data", pay)]

/-- `Except.ok`-ness as a boolean, for stating that a call did not raise. -/
def exceptOk {α β : Type} (r : Except α β) : Bool :=
  match r with
  | .ok _ => true
  | .error _ => false

/-- The binary64 value of `500 / 100` is exactly `5`: this amount converts
without representation error. -/
lemma floatDivQ_500_100 : floatDivQ 500 100 = 5 := by
  show F64.toRat (f64Div 500 100) = 5
  rw [show f64Div 500 100 = ⟨5629499534213120, 50⟩ from by decide]
  unfold F64.toRat
  norm_num

/-- For any collaborator behaviour, the webhook pipeline applied to
`paymentEvt` makes exactly the one `process_purchase` call. -/
lemma handle_webhook_paymentEvt_calls (c : Collabs)
    (rs : PyVal → Except String (Int × Int)) (now : String) :
    (handle_webhook (.ok paymentEvt) c rs now).1 = [purchaseCall500] := by
  cases hcp : c.process_purchase (.str "u1") (.str "cs_1") (floatDivQ 500 100)
      (.str "usd") (.dict []) with
  | ok v =>
    simp [handle_webhook, process_single_payment, paymentEvt, hcp, PyVal.getItem,
      PyVal.get, PyVal.isStr, PyVal.asInt, PyVal.inStrList, PyVal.truthy,
      normalize_subscription_event, webhookSubscriptionTypes, dGet, dGetD,
      dUpdate, dSet, okResp, errResp, List.lookup, purchaseCall500]
  | error e =>
    simp [handle_webhook, process_single_payment, paymentEvt, hcp, PyVal.getItem,
      PyVal.get, PyVal.isStr, PyVal.asInt, PyVal.inStrList, PyVal.truthy,
      normalize_subscription_event, webhookSubscriptionTypes, dGet, dGetD,
      dUpdate, dSet, okResp, errResp, List.lookup, purchaseCall500]

/-- `int(q)` on the exact rational image of a natural number is that number. -/
lemma pyTrunc_natCast (n : ℕ) : pyTrunc (n : ℚ) = n := by
  simp [pyTrunc]

/-! ## Claim theorems -/

/-- Claim C1, counterexample.  The claim says that a second submission of the
same event is recognized as a duplicate and invokes no collaborator, so that
`process_purchase` runs exactly once.  In the code there is no idempotency
ledger: submitting `paymentEvt` twice in sequence invokes `process_purchase`
twice, and the second submission alone still makes one collaborator call. -/
theorem c1_second_delivery_invokes_again :
    purchaseCount ((handle_webhook (.ok paymentEvt) trivCollabs failRetrieve "t0").1
      ++ (handle_webhook (.ok paymentEvt) trivCollabs failRetrieve "t0").1) = 2
    ∧ purchaseCount ((handle_webhook (.ok paymentEvt) trivCollabs failRetrieve "t0").1) = 1 :=
  ⟨rfl, rfl⟩

/-- Claim C1, amended.  The pipeline keeps no idempotency state: every
submission of the same one-time-payment event is processed afresh, invoking
the purchase collaborator once per delivery — so two sequential deliveries
invoke it twice, whatever the collaborators and enrichment lookup do. -/
theorem c1_stateless_no_dedup (c : Collabs)
    (rs : PyVal → Except String (Int × Int)) (now : String) :
    purchaseCount ((handle_webhook (.ok paymentEvt) c rs now).1) = 1
    ∧ purchaseCount ((handle_webhook (.ok paymentEvt) c rs now).1
        ++ (handle_webhook (.ok paymentEvt) c rs now).1) = 2 := by
  rw [handle_webhook_paymentEvt_calls]
  exact ⟨rfl, rfl⟩

/-- Claim C2.  The claim says an `invoice.paid` renewal whose period-bounds
lookup fails still normalizes to `subscription_renewed` and reaches dispatch.
In the code, `normalize_subscription_event` raises `UnboundLocalError` on
every `invoice.paid` event — the log statement references
`stripe_subscription` before its assignment, outside the guarding `try` — so
normalization never completes, whatever the enrichment lookup would return,
and the webhook handler answers with the error body, never calling
`process_subscription_event`. -/
theorem c2_invoice_paid_normalization_raises (c : Collabs)
    (rs : PyVal → Except String (Int × Int)) (now : String) :
    normalize_subscription_event rs now invoicePaidEvt = .error unboundLocalMsg
    ∧ handle_webhook (.ok invoicePaidEvt) c rs now = ([], errResp unboundLocalMsg)
    ∧ subEventCount (handle_webhook (.ok invoicePaidEvt) c rs now).1 = 0 :=
  ⟨rfl, rfl, rfl⟩

/-- Claim C3.  Totality of normalization: for every `event_type` string
outside the recognized set the result is the bare (unrecognized) record and no
exception is raised; but for `invoice.paid`, which is in the recognized set,
normalization raises instead of producing a recognized `event_type`. -/
theorem c3_normalize_totality :
    (∀ (s : String) (rs : PyVal → Except String (Int × Int)) (now : String) (pay : PyVal),
      s ≠ "checkout.session.completed" → s ≠ "invoice.paid" →
      s ≠ "customer.subscription.updated" → s ≠ "customer.subscription.deleted" →
      normalize_subscription_event rs now (mkEvt s pay) =
        .ok [("original_type", PyVal.str s), ("provider", PyVal.str "stripe"),
             ("timestamp", PyVal.str now)])
    ∧ "invoice.paid" ∈ webhookSubscriptionTypes
    ∧ ∀ (rs : PyVal → Except String (Int × Int)) (now : String),
        normalize_subscription_event rs now invoicePaidEvt = .error unboundLocalMsg := by
  refine ⟨?_, by simp [webhookSubscriptionTypes], fun rs now => rfl⟩
  intro s rs now pay h1 h2 h3 h4
  simp [normalize_subscription_event, mkEvt, PyVal.getItem, List.lookup,
    PyVal.isStr, beq_iff_eq, h1, h2, h3, h4]

/-- Claim C3, witness: the first part of `c3_normalize_totality` applied to
the concrete unrecognized event type `charge.refunded`. -/
theorem c3_normalize_totality_witness :
    normalize_subscription_event failRetrieve "t0" (mkEvt "charge.refunded" (PyVal.dict [])) =
      .ok [("original_type", PyVal.str "charge.refunded"), ("provider", PyVal.str "stripe"),
           ("timestamp", PyVal.str "t0")] :=
  c3_normalize_totality.1 "charge.refunded" failRetrieve "t0" (PyVal.dict [])
    (by decide) (by decide) (by decide) (by decide)

/-- Claim C4.  With the exact integer arithmetic the claim (and the spec)
prescribe, minor-units conversion round-trips for every amount.  But the code
converts with binary64 float division (`amount_total / 100`): the amount
passed to the purchase collaborator for 29 minor units is the float value of
`29 / 100`, which is not the rational `29/100`; composing the two code
conversions (divide by 100, multiply by 100, truncate with `int`) yields 28
for 29 minor units — and 1998 for the 1999 of the very example in the claim — so
the round trip drifts. -/
theorem c4_minor_units_roundtrip :
    (∀ n : ℕ, pyTrunc (((n : ℚ) / 100) * 100) = n)
    ∧ (process_single_payment trivCollabs paymentEvt29).1 =
        [CollabCall.processPurchase (.str "u1") (.str "cs_29") (floatDivQ 29 100)
          (.str "usd") (.dict []) "stripe"]
    ∧ floatDivQ 29 100 ≠ 29 / 100
    ∧ f64Trunc (f64MulNat (f64Div 29 100) 100) = 28
    ∧ f64Trunc (f64MulNat (f64Div 1999 100) 100) = 1998 := by
  refine ⟨?_, rfl, ?_, by decide, by decide⟩
  · intro n
    rw [div_mul_cancel₀ _ (by norm_num : (100 : ℚ) ≠ 0)]
    exact pyTrunc_natCast n
  · show F64.toRat (f64Div 29 100) ≠ 29 / 100
    rw [show f64Div 29 100 = ⟨5224175567749775, 54⟩ from by decide]
    unfold F64.toRat
    norm_num

/-- Claim C5, counterexample.  The claim says a verification failure is
reported with a client-error-class (4xx) response.  In the code the outer
`try/except` catches the verification exception and returns a plain dict, so
the HTTP status is 200 — not in the 4xx class. -/
theorem c5_verification_failure_returns_200 :
    (handle_webhook (.error "No signatures found matching the expected signature for payload")
        trivCollabs failRetrieve "t0").2.httpStatus = 200
    ∧ ¬ (400 ≤ (handle_webhook
          (.error "No signatures found matching the expected signature for payload")
          trivCollabs failRetrieve "t0").2.httpStatus
        ∧ (handle_webhook
            (.error "No signatures found matching the expected signature for payload")
            trivCollabs failRetrieve "t0").2.httpStatus < 500) :=
  ⟨rfl, by decide⟩

/-- Claim C5, amended.  Every verification failure is reported to the caller
with an HTTP 200 response whose JSON body carries `status = "error"` and the
exception message (the source comments "Always return 200 to Stripe even on
error"), and no collaborator is invoked. -/
theorem c5_verification_failure_error_body (e : String) (c : Collabs)
    (rs : PyVal → Except String (Int × Int)) (now : String) :
    handle_webhook (.error e) c rs now = ([], errResp e)
    ∧ (errResp e).httpStatus = 200 ∧ (errResp e).status = "error" :=
  ⟨rfl, rfl, rfl⟩

/-- Claim C6.  Every webhook request that passes signature verification is
acknowledged with HTTP status 200, whatever the collaborators do; and a
failing subscription handler is absorbed by the inner `try` — the response
body for `deletedEvt` is still the success body even when every collaborator
raises. -/
theorem c6_verified_always_acknowledged (ev : PyVal) (c : Collabs)
    (rs : PyVal → Except String (Int × Int)) (now e : String) :
    ((handle_webhook (.ok ev) c rs now).2).httpStatus = 200
    ∧ (handle_webhook (.ok deletedEvt) (failingCollabs e) rs now).2 = okResp := by
  constructor
  · unfold handle_webhook
    repeat' split
    all_goals rfl
  · rfl

/-- Claim C7.  For every verified `checkout.session.completed` event whose
session is in one-time-payment mode (`mode = "payment"`), whatever values its
`client_reference_id`, session `id`, integer `amount_total`, `currency` and
`metadata` fields hold and whatever the collaborators and enrichment lookup
do, the pipeline invokes the purchase collaborator exactly once, with the
client reference as actor, the session id as transaction id, the amount the
code computes for `amount_total / 100`, the payload currency and metadata,
and source `stripe`; in particular the event with `amount_total = 500`,
`currency = "usd"`, `client_reference_id = "u1"` produces exactly the call
with amount 5. -/
theorem c7_purchase_dispatch (c : Collabs)
    (rs : PyVal → Except String (Int × Int)) (now : String) :
    (∀ (event data session cref tid : PyVal) (amt : Int) (cur md : PyVal),
      event.getItem "type" = .ok (.str "checkout.session.completed") →
      event.getItem "data" = .ok data →
      data.getItem "object" = .ok session →
      session.get "mode" = .ok (.str "payment") →
      session.getItem "client_reference_id" = .ok cref →
      session.getItem "id" = .ok tid →
      session.getItem "amount_total" = .ok (.int amt) →
      session.getItem "currency" = .ok cur →
      session.getItem "metadata" = .ok md →
      (handle_webhook (.ok event) c rs now).1 =
        [CollabCall.processPurchase cref tid (floatDivQ amt 100) cur md "stripe"]
      ∧ purchaseCount (handle_webhook (.ok event) c rs now).1 = 1)
    ∧ (handle_webhook (.ok paymentEvt) c rs now).1 =
        [CollabCall.processPurchase (.str "u1") (.str "cs_1") 5 (.str "usd")
          (.dict []) "stripe"] := by
  constructor
  · intro event data session cref tid amt cur md htype hdata hobj hmode hcref hid hamt hcur hmd
    have hcalls : (handle_webhook (.ok event) c rs now).1 =
        [CollabCall.processPurchase cref tid (floatDivQ amt 100) cur md "stripe"] := by
      cases hcp : c.process_purchase cref tid (floatDivQ amt 100) cur md with
      | ok v =>
        simp [handle_webhook, process_single_payment, htype, hdata, hobj, hmode,
          hcref, hid, hamt, hcur, hmd, hcp, PyVal.isStr, PyVal.asInt]
      | error e =>
        simp [handle_webhook, process_single_payment, htype, hdata, hobj, hmode,
          hcref, hid, hamt, hcur, hmd, hcp, PyVal.isStr, PyVal.asInt]
    refine ⟨hcalls, ?_⟩
    rw [hcalls]
    rfl
  · rw [handle_webhook_paymentEvt_calls]
    rw [show purchaseCall500 = CollabCall.processPurchase (.str "u1") (.str "cs_1") 5
        (.str "usd") (.dict []) "stripe" from by rw [purchaseCall500, floatDivQ_500_100]]

/-- Claim C7, witness: the universal part of `c7_purchase_dispatch` applied to
the concrete one-time-payment event with `amount_total = 29` minor units — an
amount whose float conversion is not exactly representable — with every
field-shape hypothesis discharged by computation. -/
theorem c7_purchase_dispatch_witness :
    (handle_webhook (.ok paymentEvt29) trivCollabs failRetrieve "t0").1 =
      [CollabCall.processPurchase (.str "u1") (.str "cs_29") (floatDivQ 29 100)
        (.str "usd") (.dict []) "stripe"]
    ∧ purchaseCount (handle_webhook (.ok paymentEvt29) trivCollabs failRetrieve "t0").1 = 1 :=
  (c7_purchase_dispatch trivCollabs failRetrieve "t0").1 paymentEvt29
    (.dict [("object", .dict
      [("id", .str "cs_29"), ("mode", .str "payment"),
       ("client_reference_id", .str "u1"), ("amount_total", .int 29),
       ("currency", .str "usd"), ("metadata", .dict [])])])
    (.dict [("id", .str "cs_29"), ("mode", .str "payment"),
      ("client_reference_id", .str "u1"), ("amount_total", .int 29),
      ("currency", .str "usd"), ("metadata", .dict [])])
    (.str "u1") (.str "cs_29") 29 (.str "usd") (.dict [])
    rfl rfl rfl rfl rfl rfl rfl rfl rfl

/-- Claim C8.  For every verified `customer.subscription.deleted` event,
whatever dictionary the payload object is and whatever the collaborators and
enrichment lookup do: normalization yields `subscription_canceled` with
`subscription_id` equal to the id found in the payload object, the pipeline
forwards the normalized event to the subscription collaborator exactly once,
and the spec-modelled downstream dispatch routes it to exactly one
`deactivateSubscription` call for that subscription id. -/
theorem c8_subscription_deleted_pipeline (c : Collabs)
    (rs : PyVal → Except String (Int × Int)) (now : String)
    (event data subscription : PyVal) (sd : PyDict)
    (htype : event.getItem "type" = .ok (.str "customer.subscription.deleted"))
    (hdata : event.getItem "data" = .ok data)
    (hobj : data.getItem "object" = .ok subscription)
    (hsub : subscription = .dict sd) :
    normalize_subscription_event rs now event = .ok (canceledNormAt now (dGet sd "id"))
    ∧ dGet (canceledNormAt now (dGet sd "id")) "event_type" = .str "subscription_canceled"
    ∧ dGet (canceledNormAt now (dGet sd "id")) "subscription_id" = dGet sd "id"
    ∧ (handle_webhook (.ok event) c rs now).1 =
        [.processSubscriptionEvent (canceledArg now (dGet sd "id") event)]
    ∧ subEventCount (handle_webhook (.ok event) c rs now).1 = 1
    ∧ dispatch_subscription_event (canceledNormAt now (dGet sd "id")) =
        [.deactivateSubscription PyVal.none (dGet sd "id")] := by
  subst hsub
  have htr : (dGet (canceledNormAt now (dGet sd "id")) "event_type").truthy = true := rfl
  have hnorm : normalize_subscription_event rs now event =
      .ok (canceledNormAt now (dGet sd "id")) := by
    simp [normalize_subscription_event, htype, hdata, hobj, PyVal.isStr,
      canceledNormAt, dUpdate, dSet]
  have hweb : (handle_webhook (.ok event) c rs now).1 =
      [.processSubscriptionEvent (canceledArg now (dGet sd "id") event)] := by
    simp [handle_webhook, process_single_payment, htype, hdata, hobj, hnorm, htr,
      PyVal.isStr, PyVal.inStrList, webhookSubscriptionTypes, canceledArg]
  refine ⟨hnorm, rfl, rfl, hweb, ?_, rfl⟩
  rw [hweb]
  rfl

/-- Claim C8, witness: `c8_subscription_deleted_pipeline` applied to the
concrete deletion event for subscription `sub_123`, with every field-shape
hypothesis discharged by computation. -/
theorem c8_subscription_deleted_pipeline_witness :
    normalize_subscription_event failRetrieve "t0" deletedEvt =
      .ok (canceledNormAt "t0" (.str "sub_123"))
    ∧ dGet (canceledNormAt "t0" (.str "sub_123")) "event_type" = .str "subscription_canceled"
    ∧ dGet (canceledNormAt "t0" (.str "sub_123")) "subscription_id" = .str "sub_123"
    ∧ (handle_webhook (.ok deletedEvt) trivCollabs failRetrieve "t0").1 =
        [.processSubscriptionEvent (canceledArg "t0" (.str "sub_123") deletedEvt)]
    ∧ subEventCount (handle_webhook (.ok deletedEvt) trivCollabs failRetrieve "t0").1 = 1
    ∧ dispatch_subscription_event (canceledNormAt "t0" (.str "sub_123")) =
        [.deactivateSubscription PyVal.none (.str "sub_123")] :=
  c8_subscription_deleted_pipeline trivCollabs failRetrieve "t0" deletedEvt
    (.dict [("object", .dict [("id", .str "sub_123")])])
    (.dict [("id", .str "sub_123")]) [("id", .str "sub_123")]
    rfl rfl rfl rfl

/-- Claim C9, counterexample.  The claim says every normalized event carries a
`source_event_id` equal to the `event_id` of the raw event.  For `deletedEvt` the
raw event id is `evt_del_1`, but the normalized dictionary has no
`source_event_id` key at all — looking it up yields `None`, not the event
id. -/
theorem c9_no_source_event_id_counterexample :
    resultGet (normalize_subscription_event failRetrieve "t0" deletedEvt) "source_event_id" =
      PyVal.none
    ∧ deletedEvt.getItem "id" = .ok (.str "evt_del_1")
    ∧ PyVal.none ≠ PyVal.str "evt_del_1" :=
  ⟨rfl, rfl, by simp⟩

/-- Claim C9, amended.  No normalized event carries a `source_event_id` field:
for every input event, looking up `source_event_id` in the normalization
result yields `None`.  The provider event id reaches the downstream handler
only inside the `original_event` forwarded alongside. -/
theorem c9_no_source_event_id (rs : PyVal → Except String (Int × Int))
    (now : String) (event : PyVal) :
    resultGet (normalize_subscription_event rs now event) "source_event_id" = PyVal.none := by
  unfold normalize_subscription_event
  repeat' split
  all_goals simp [resultGet, dGet, dGetD, dUpdate, dSet]

/-- Claim C10.  `subscription_checkout` with an interval other than `month` or
`year` raises `ValueError` before invoking the payment provider (no session
parameters are marshalled, no call made); with `month` or `year` it does not
raise and makes exactly one provider call. -/
theorem c10_interval_validation (createSession : SessionParams → String)
    (baseUrl user_id plan_name : String) (amount : ℚ) (interval currency : String)
    (urls : Option CheckoutUrls) (metadata : Option PyDict) :
    (interval ≠ "month" → interval ≠ "year" →
      subscription_checkout createSession baseUrl user_id plan_name amount interval
        currency urls metadata = ([], .error "ValueError: interval must be month or year"))
    ∧ ((interval = "month" ∨ interval = "year") →
      exceptOk (subscription_checkout createSession baseUrl user_id plan_name amount interval
        currency urls metadata).2 = true
      ∧ (subscription_checkout createSession baseUrl user_id plan_name amount interval
        currency urls metadata).1.length = 1) := by
  constructor
  · intro h1 h2
    unfold subscription_checkout
    rw [if_neg (fun h => h.elim h1 h2)]
  · intro h
    unfold subscription_checkout
    rw [if_pos h]
    exact ⟨rfl, rfl⟩

/-- Claim C10, witness: `c10_interval_validation` at interval `week` (raises,
no provider call) and at interval `month` (no raise, one provider call). -/
theorem c10_interval_validation_witness :
    subscription_checkout (fun _ => "url") "http://localhost:8012" "u1" "plan"
      (1999 / 100 : ℚ) "week" "USD" Option.none Option.none =
        ([], .error "ValueError: interval must be month or year")
    ∧ exceptOk (subscription_checkout (fun _ => "url") "http://localhost:8012" "u1" "plan"
        (1999 / 100 : ℚ) "month" "USD" Option.none Option.none).2 = true
    ∧ (subscription_checkout (fun _ => "url") "http://localhost:8012" "u1" "plan"
        (1999 / 100 : ℚ) "month" "USD" Option.none Option.none).1.length = 1 :=
  ⟨(c10_interval_validation (fun _ => "url") "http://localhost:8012" "u1" "plan"
      (1999 / 100 : ℚ) "week" "USD" Option.none Option.none).1 (by decide) (by decide),
   ((c10_interval_validation (fun _ => "url") "http://localhost:8012" "u1" "plan"
      (1999 / 100 : ℚ) "month" "USD" Option.none Option.none).2 (Or.inl rfl)).1,
   ((c10_interval_validation (fun _ => "url") "http://localhost:8012" "u1" "plan"
      (1999 / 100 : ℚ) "month" "USD" Option.none Option.none).2 (Or.inl rfl)).2⟩

end MrStripe
